import Mathlib

/-!
Verification of the ffmpeg-dev build pipeline (`src/build.rs`).

The build script is shallowly embedded: the filesystem, the process
environment and the external processes (tar, configure, make, bindgen,
cc) are parameters of the model, and the script's pure decision logic is
translated function by function.  Rust `String` operations are modelled
by structurally recursive functions over `List Char` so that every
definition evaluates inside the kernel.
-/

namespace FfmpegDev

/-! ### Character-level string helpers (models of the Rust `str` methods used) -/

/-- Whitespace test matching the characters `str::trim` removes for the
ASCII inputs this build script deals with. -/
def isWsChar (c : Char) : Bool := c = ' ' || c = '\t' || c = '\r' || c = '\n'

/-- ASCII lower-casing of one character, the behaviour of Rust
`str::to_lowercase` on the ASCII-only values compared by the script. -/
def lowerChar (c : Char) : Char :=
  if 65 ≤ c.toNat && c.toNat ≤ 90 then Char.ofNat (c.toNat + 32) else c

/-- Model of Rust `str::to_lowercase` (ASCII fragment). -/
def to_lowercase (s : String) : String := ⟨s.data.map lowerChar⟩

/-- Split a character list at newline characters. -/
def splitNlAux : List Char → List Char → List (List Char)
  | [], cur => [cur.reverse]
  | c :: rest, cur =>
    if c = '\n' then cur.reverse :: splitNlAux rest [] else splitNlAux rest (c :: cur)

/-- Drop one trailing carriage return, as Rust `str::lines` does. -/
def stripCr (l : List Char) : List Char :=
  match l.reverse with
  | '\r' :: t => t.reverse
  | _ => l

/-- Model of Rust `str::lines`: split on newline, do not yield a final
empty line after a trailing newline, strip a trailing carriage return. -/
def rustLines (s : String) : List String :=
  let parts := splitNlAux s.data []
  let parts :=
    if parts.getLast? = some [] then parts.dropLast else parts
  (parts.map stripCr).map (fun l => ⟨l⟩)

/-- Decidable prefix test on character lists. -/
def isPrefixChars : List Char → List Char → Bool
  | [], _ => true
  | _ :: _, [] => false
  | a :: as, b :: bs => a = b && isPrefixChars as bs

/-- Decidable substring test on character lists. -/
def containsSubChars (pat : List Char) : List Char → Bool
  | [] => isPrefixChars pat []
  | c :: rest => isPrefixChars pat (c :: rest) || containsSubChars pat rest

/-- Model of Rust `str::contains` with a string pattern. -/
def str_contains (hay pat : String) : Bool := containsSubChars pat.data hay.data

/-- Model of `str::trim` (for the ASCII whitespace relevant here). -/
def trimChars (l : List Char) : List Char :=
  ((l.dropWhile isWsChar).reverse.dropWhile isWsChar).reverse

/-- A line is empty or whitespace-only after trimming. -/
def trimIsEmpty (s : String) : Bool := (trimChars s.data).isEmpty

/-- Decimal digit character. -/
def digitChar (n : Nat) : Char := Char.ofNat (48 + n)

/-- Fuel-driven decimal rendering (structural, kernel-evaluable). -/
def natToStringAux : Nat → Nat → List Char
  | 0, _ => []
  | fuel + 1, n =>
    if n < 10 then [digitChar n] else natToStringAux fuel (n / 10) ++ [digitChar (n % 10)]

/-- Model of Rust `format!` of an unsigned integer. -/
def natToString (n : Nat) : String := ⟨natToStringAux (n + 1) n⟩

/-! ### Environment utilities (build.rs lines 17-38)

The process environment is modelled as a partial map from variable names
to values; `std::env::var` returning `Err` is the `none` case. -/

/-- The process environment seen by the build script. -/
abbrev Env := String → Option String

/-- Model of `has_env_var_with_value` (build.rs lines 33-38): read the
variable, lower-case it, compare with the lower-cased expected value, and
treat a read failure as `false`. -/
def has_env_var_with_value (env : Env) (s v : String) : Bool :=
  (((env s).map (fun x => to_lowercase x)).map
    (fun x => x == to_lowercase v)).getD false

/-- Model of `is_release_mode` (build.rs lines 21-23). -/
def is_release_mode (env : Env) : Bool :=
  has_env_var_with_value env "PROFILE" "release"

/-- Model of `is_debug_mode` (build.rs lines 25-27). -/
def is_debug_mode (env : Env) : Bool :=
  has_env_var_with_value env "PROFILE" "debug"

/-- Model of `opt_level_eq` (build.rs lines 29-31). -/
def opt_level_eq (env : Env) (x : Nat) : Bool :=
  has_env_var_with_value env "OPT_LEVEL" (natToString x)

/-! ### extract_tar_file (build.rs lines 44-64)

The archive unpack step and the directory listing of the destination are
parameters: `unpackOk` is whether `archive.unpack` succeeded, and
`destSubdirs` is the list of directories found in `dest` afterwards. -/

/-- The single-top-level-directory detection of build.rs lines 58-61:
`Some` exactly when the destination holds one directory. -/
def detect_top_level (destSubdirs : List String) : Option String :=
  match destSubdirs with
  | [x] => some x
  | _ => none

/-- Model of `extract_tar_file` (build.rs lines 44-64).  On unpack
failure the error is propagated with `?`.  On success the function binds
`tmp_source_dir` to the top-level-directory detection but never reads it
again, and returns `Ok(())` unconditionally. -/
def extract_tar_file (unpackOk : Bool) (destSubdirs : List String) :
    Except String Unit :=
  if unpackOk then
    let _tmp_source_dir := detect_top_level destSubdirs
    Except.ok ()
  else Except.error "failed to unpack tar file"

/-! ### lookup_newest (build.rs lines 66-95)

Filesystem metadata is a parameter: `meta p` is the creation timestamp of
path `p` (duration since the epoch), or `none` when the metadata chain
(`metadata`, `created`, `duration_since`) fails at any step. -/

/-- Paths paired with their readable creation timestamps, in input order
(the `filter_map` of build.rs lines 72-82). -/
def with_timestamps (meta : String → Option Nat) (paths : List String) :
    List (String × Nat) :=
  paths.filterMap (fun x => (meta x).map (fun t => (x, t)))

/-- One step of the `for_each` accumulation of build.rs lines 83-92:
replace the current best only on a strictly greater timestamp. -/
def newest_step (acc : Option (String × Nat)) (xt : String × Nat) :
    Option (String × Nat) :=
  match acc with
  | none => some xt
  | some yt => if xt.2 > yt.2 then some xt else some yt

/-- Model of `lookup_newest` (build.rs lines 66-95). -/
def lookup_newest (meta : String → Option Nat) (paths : List String) :
    Option String :=
  ((with_timestamps meta paths).foldl newest_step none).map Prod.fst

/-! ### Path tables (build.rs lines 139-180) -/

/-- The `STATIC_LIBS` table: (short name, relative archive path), in
authored order (build.rs lines 139-168). -/
def STATIC_LIBS : List (String × String) :=
  [("avcodec", "libavcodec/libavcodec.a"),
   ("avdevice", "libavdevice/libavdevice.a"),
   ("avfilter", "libavfilter/libavfilter.a"),
   ("avformat", "libavformat/libavformat.a"),
   ("avutil", "libavutil/libavutil.a"),
   ("swresample", "libswresample/libswresample.a"),
   ("swscale", "libswscale/libswscale.a")]

/-- The `SEARCH_PATHS` table (build.rs lines 170-180). -/
def SEARCH_PATHS : List String :=
  ["libavcodec", "libavdevice", "libavfilter", "libavformat",
   "libavresample", "libavutil", "libpostproc", "libswresample", "libswscale"]

/-- Model of `Path::join` for the relative paths used here. -/
def pathJoin (a b : String) : String := a ++ "/" ++ b

/-! ### The native-build skip gate (build.rs lines 205-218) -/

/-- The absolute artifact paths probed by the gate (build.rs lines 210-213). -/
def artifact_paths (source_path : String) : List String :=
  STATIC_LIBS.map (fun l => pathJoin source_path l.2)

/-- Model of `already_built` (build.rs lines 209-214): every artifact
path exists.  `ex` is the filesystem existence probe. -/
def already_built (ex : String → Bool) (source_path : String) : Bool :=
  (artifact_paths source_path).all ex

/-- Model of the `skip_build` computation (build.rs lines 215-218):
artifacts present and not release mode, then forced to `false` by the
`FFDEV1=1` override. -/
def skip_build (ex : String → Bool) (source_path : String) (env : Env) : Bool :=
  let skip := already_built ex source_path && !(is_release_mode env)
  if has_env_var_with_value env "FFDEV1" "1" then false else skip

/-! ### Configure step with the signature-gated retry (build.rs lines 276-321)

An external process run is a success flag plus captured stdout/stderr.
`evalConfigure` models the `eval_configure` closure: the outcome of
running `./configure` with a given flag list (the closure joins the
flags with spaces before passing them to `sh`). -/

/-- Captured outcome of one external process invocation. -/
structure ProcOutput where
  success : Bool
  stdout : String
  stderr : String
deriving DecidableEq

/-- The one recognized failure signature (build.rs line 308). -/
def nasm_signature : String := "nasm/yasm not found or too old"

/-- Model of the `nasm_yasm_issue` scan (build.rs lines 305-308): any
line of stderr chained with the lines of stdout contains the signature. -/
def nasm_yasm_issue (r : ProcOutput) : Bool :=
  (rustLines r.stderr ++ rustLines r.stdout).any
    (fun l => str_contains l nasm_signature)

/-- Diagnostic text of a failed configure run (build.rs lines 316 and
319): `vec![stderr, stdout].join("\n")` under the panic banner. -/
def configure_diag (r : ProcOutput) : String :=
  "configure failed:\n" ++ (r.stderr ++ "\n" ++ r.stdout)

/-- Base configure flag list (build.rs lines 278-288): the three
unconditional flags, plus the three dev-iteration flags when the profile
is debug at optimization level 0. -/
def configure_flags (env : Env) : List String :=
  ["--disable-programs", "--disable-doc", "--disable-autodetect"] ++
    (if is_debug_mode env && opt_level_eq env 0 then
      ["--disable-optimizations", "--disable-debug", "--disable-stripping"]
    else [])

/-- The flag appended for the retry (build.rs line 311). -/
def disable_x86asm : String := "--disable-x86asm"

/-- Model of the configure invocation with its signature-gated retry
(build.rs lines 301-321).  The first component records the flag list of
every `eval_configure` invocation, in order; the second is the outcome,
with `Except.error` carrying the panic text. -/
def run_configure (ev : List String → ProcOutput) (flags : List String) :
    List (List String) × Except String Unit :=
  let result := ev flags
  if result.success then ([flags], Except.ok ())
  else if nasm_yasm_issue result then
    let retryFlags := flags ++ [disable_x86asm]
    let result2 := ev retryFlags
    if result2.success then ([flags, retryFlags], Except.ok ())
    else ([flags, retryFlags], Except.error (configure_diag result2))
  else ([flags], Except.error (configure_diag result))

/-- Diagnostic text of a failed `make` run (build.rs lines 334-343). -/
def make_diag (r : ProcOutput) : String :=
  "make failed:\n" ++
    (("* stderr:\n" ++ r.stderr) ++ "\n\n" ++ ("* stdout:\n" ++ r.stdout))

/-! ### Codegen gate and header resolution (build.rs lines 371-438) -/

/-- Model of the `skip_codegen` computation (build.rs lines 396-399):
the generated file's existence, forced to `false` by the `FFDEV2=2`
override. -/
def skip_codegen (genFileExists : Bool) (env : Env) : Bool :=
  let skip := genFileExists
  if has_env_var_with_value env "FFDEV2" "2" then false else skip

/-- Model of `load_manifest`: the `headers` file is read, split into
lines, and rejected whole (the `assert!` of build.rs lines 380-385
panics) when any line is empty after trimming. -/
def load_manifest (content : String) : Except String (List String) :=
  let lines := rustLines content
  if lines.all (fun l => !(trimIsEmpty l)) then Except.ok lines
  else Except.error "manifest line empty after trimming"

/-- Model of the header-resolution fold (build.rs lines 404-417): each
manifest entry is joined onto the source tree; unresolved full paths are
pushed onto `missing`, resolved ones are added to the bindgen builder.
The accumulator is (missing, resolved), each in encounter order.  `hx` is
the filesystem existence probe for header paths.  This is one fold step. -/
def resolve_step (hx : String → Bool) (source_path : String)
    (acc : List String × List String) (path : String) :
    List String × List String :=
  let full := pathJoin source_path path
  if hx full then (acc.1, acc.2 ++ [full]) else (acc.1 ++ [full], acc.2)

/-- The full resolution fold, started from empty accumulators. -/
def resolve_headers (hx : String → Bool) (source_path : String)
    (headers : List String) : List String × List String :=
  headers.foldl (resolve_step hx source_path) ([], [])

/-! ### The whole pipeline (build.rs lines 205-448, non-Windows path)

Everything the script observes or invokes is a field of `BuildWorld`:
the environment, the filesystem probes, and the outcome of each external
process.  The Windows-only `cfg` branches are not modelled. -/

/-- Directives printed for the outer build system. -/
inductive Directive
  | linkSearch (path : String)
  | linkLibStatic (name : String)
  | rerunIfChanged (tag : String)
deriving DecidableEq

/-- Fatal outcomes of the pipeline (each a `panic!`, `assert!` or
`expect` in build.rs). -/
inductive BuildError
  | extractionError
  | configureError (diag : String)
  | makeError (diag : String)
  | manifestError
  | missingHeaders (paths : List String)
  | codegenError
  | cbitsError
deriving DecidableEq

/-- The world the build script runs against. -/
structure BuildWorld where
  env : Env
  pathExists : String → Bool
  tarOk : Bool
  sourceExistsAfterExtract : Bool
  evalConfigure : List String → ProcOutput
  makeResult : ProcOutput
  headersFile : Option String
  genFileExists : Bool
  headerExists : String → Bool
  generateOk : Bool
  cbitsOk : Bool

/-- The fixed source directory name (build.rs line 207). -/
def source_dir_name : String := "FFmpeg-FFmpeg-2722fc2"

/-- The EXTRACT phase (build.rs lines 223-273): runs when the source
path is missing or the build is not skipped; fails when tar fails or the
source path still does not exist afterwards. -/
def extract_phase (w : BuildWorld) (source_path : String) (skip : Bool) :
    Option BuildError :=
  if !w.pathExists source_path || !skip then
    if w.tarOk then
      if w.sourceExistsAfterExtract then none else some BuildError.extractionError
    else some BuildError.extractionError
  else none

/-- The BUILD CODE phase (build.rs lines 275-346): configure with retry,
then make, both skipped when `skip` holds. -/
def native_phase (w : BuildWorld) (skip : Bool) : Option BuildError :=
  if skip then none
  else
    match (run_configure w.evalConfigure (configure_flags w.env)).2 with
    | Except.error d => some (BuildError.configureError d)
    | Except.ok _ =>
      if w.makeResult.success then none
      else some (BuildError.makeError (make_diag w.makeResult))

/-- The static-link directives of build.rs lines 368-370, one per
`STATIC_LIBS` entry, in table order. -/
def emit_static_links : List Directive :=
  STATIC_LIBS.map (fun l => Directive.linkLibStatic l.1)

/-- Every directive printed by the LINK section (build.rs lines
347-370): the source root, the per-component search paths, then the
static-link declarations. -/
def link_directives (source_path : String) : List Directive :=
  Directive.linkSearch source_path ::
    (SEARCH_PATHS.map (fun p => Directive.linkSearch (pathJoin source_path p)) ++
      emit_static_links)

/-- The bindgen run guarded by the missing-header check (build.rs lines
401-438): after the fold, a non-empty `missing` panics listing every
entry; only then does generation run. -/
def run_codegen (hx : String → Bool) (source_path : String)
    (lines : List String) (generateOk : Bool) : Option BuildError :=
  let res := resolve_headers hx source_path lines
  if res.1.isEmpty then
    if generateOk then none else some BuildError.codegenError
  else some (BuildError.missingHeaders res.1)

/-- The gated codegen body (build.rs lines 396-438). -/
def codegen_phase (w : BuildWorld) (source_path : String)
    (lines : List String) : Option BuildError :=
  if skip_codegen w.genFileExists w.env then none
  else run_codegen w.headerExists source_path lines w.generateOk

/-- The CODEGEN section (build.rs lines 371-439): read the `headers`
manifest (a read failure or a blank line panics), then run the gated
generation. -/
def codegen_section (w : BuildWorld) (source_path : String) :
    Option BuildError :=
  match w.headersFile with
  | none => some BuildError.manifestError
  | some content =>
    match load_manifest content with
    | Except.error _ => some BuildError.manifestError
    | Except.ok lines => codegen_phase w source_path lines

/-- Model of `build` (build.rs lines 205-448, non-Windows): the trace of
directives printed so far is returned together with the fatal error, if
any.  A `panic!`/`assert!` stops the script, so nothing after the failing
phase contributes to the trace. -/
def build (w : BuildWorld) (out_path : String) :
    List Directive × Option BuildError :=
  let source_path := pathJoin out_path source_dir_name
  let skip := skip_build w.pathExists source_path w.env
  match extract_phase w source_path skip with
  | some e => ([], some e)
  | none =>
    match native_phase w skip with
    | some e => ([], some e)
    | none =>
      let trace := link_directives source_path ++ [Directive.rerunIfChanged "headers"]
      match codegen_section w source_path with
      | some e => (trace, some e)
      | none =>
        if w.cbitsOk then (trace, none) else (trace, some BuildError.cbitsError)

/-! ### Concrete worlds and environments used by witnesses -/

/-- An environment that sets only `PROFILE=Release` (mixed case). -/
def envRelease : Env := fun k => if k = "PROFILE" then some "Release" else none

/-- A world in which every probe succeeds and every process succeeds. -/
def worldBase : BuildWorld where
  env := fun _ => none
  pathExists := fun _ => true
  tarOk := true
  sourceExistsAfterExtract := true
  evalConfigure := fun _ => ⟨true, "", ""⟩
  makeResult := ⟨true, "", ""⟩
  headersFile := some "libavcodec/avcodec.h"
  genFileExists := true
  headerExists := fun _ => true
  generateOk := true
  cbitsOk := true

/-! ### Claims -/

/-- Claim C1: the native-build skip gate returns `skip = true` iff every
artifact path exists, the profile is not release, and the forced-rebuild
override `FFDEV1=1` is not set; release always yields `skip = false`, and
the override always yields `skip = false`. -/
theorem claim_C1 (ex : String → Bool) (sp : String) (env : Env) :
    (skip_build ex sp env = true ↔
      ((∀ p ∈ artifact_paths sp, ex p = true) ∧
        is_release_mode env = false ∧
        has_env_var_with_value env "FFDEV1" "1" = false)) ∧
    (is_release_mode env = true → skip_build ex sp env = false) ∧
    (has_env_var_with_value env "FFDEV1" "1" = true →
      skip_build ex sp env = false) := by
  cases hf : has_env_var_with_value env "FFDEV1" "1" <;>
    cases hr : is_release_mode env <;>
      simp [skip_build, already_built, hf, hr, List.all_eq_true]

/-- Claim C1 witness: with every artifact present but `PROFILE=Release`,
the gate still answers `skip = false`. -/
theorem claim_C1_witness :
    skip_build (fun _ => true) "src" envRelease = false :=
  (claim_C1 (fun _ => true) "src" envRelease).2.1 (by decide)

/-- Claim C3 counterexample: after a successful unpack into a destination
with no top-level directory at all, `extract_tar_file` still returns
success, contrary to the claimed `ExtractionError`. -/
theorem claim_C3_counterexample :
    detect_top_level ([] : List String) = none ∧
    extract_tar_file true [] = Except.ok () := ⟨rfl, rfl⟩

/-- Claim C3 amended: `extract_tar_file` fails exactly when decompression
fails; the top-level-directory detection is computed but discarded, so the
result is independent of the destination's directory layout and success is
returned even for a missing or ambiguous top-level directory. -/
theorem claim_C3_amended (unpackOk : Bool) (dirs dirs' : List String) :
    (extract_tar_file unpackOk dirs = Except.ok () ↔ unpackOk = true) ∧
    extract_tar_file unpackOk dirs = extract_tar_file unpackOk dirs' := by
  cases unpackOk <;> simp [extract_tar_file]

/-- Claim C5: binding generation is skipped iff the generated output file
exists and the force-codegen override `FFDEV2=2` is not set; the gate is a
function of the output file's existence and the override alone, and when
it answers skip the codegen phase does nothing regardless of headers. -/
theorem claim_C5 (w : BuildWorld) (sp : String) (lines : List String) :
    (skip_codegen w.genFileExists w.env = true ↔
      (w.genFileExists = true ∧
        has_env_var_with_value w.env "FFDEV2" "2" = false)) ∧
    (has_env_var_with_value w.env "FFDEV2" "2" = true →
      skip_codegen w.genFileExists w.env = false) ∧
    (skip_codegen w.genFileExists w.env = true →
      codegen_phase w sp lines = none) := by
  cases hf : has_env_var_with_value w.env "FFDEV2" "2" <;>
    cases hg : w.genFileExists <;>
      simp [skip_codegen, codegen_phase, hf, hg]

/-- Claim C5 witness: output file present, no override set — the codegen
phase is skipped. -/
theorem claim_C5_witness :
    codegen_phase worldBase "src" ["changed/header.h"] = none :=
  (claim_C5 worldBase "src" ["changed/header.h"]).2.2 (by decide)

/-- Claim C6: the static-link directives are exactly one per artifact in
the authored `STATIC_LIBS` order — avcodec, avdevice, avfilter, avformat,
avutil, swresample, swscale — and in particular avcodec precedes avutil. -/
theorem claim_C6 :
    emit_static_links =
      [Directive.linkLibStatic "avcodec", Directive.linkLibStatic "avdevice",
       Directive.linkLibStatic "avfilter", Directive.linkLibStatic "avformat",
       Directive.linkLibStatic "avutil", Directive.linkLibStatic "swresample",
       Directive.linkLibStatic "swscale"] ∧
    List.indexOf (Directive.linkLibStatic "avcodec") emit_static_links <
      List.indexOf (Directive.linkLibStatic "avutil") emit_static_links := by
  exact ⟨rfl, by decide⟩

/-- Claim C10: every environment-flag test lower-cases both sides before
comparing, an absent variable simply yields `false`, `PROFILE=Release`
counts as release mode, and an unset `OPT_LEVEL` is treated as not
matching. -/
theorem claim_C10 (env : Env) (s v : String) :
    (env s = none → has_env_var_with_value env s v = false) ∧
    (∀ x, env s = some x →
      has_env_var_with_value env s v = (to_lowercase x == to_lowercase v)) ∧
    (env "PROFILE" = some "Release" → is_release_mode env = true) ∧
    (env "OPT_LEVEL" = none → opt_level_eq env 0 = false) := by
  refine ⟨?_, ?_, ?_, ?_⟩
  · intro h; simp [has_env_var_with_value, h]
  · intro x h; simp [has_env_var_with_value, h]
  · intro h
    unfold is_release_mode has_env_var_with_value
    rw [h]; decide
  · intro h
    unfold opt_level_eq has_env_var_with_value
    rw [h]; rfl

/-- Claim C10 witness: `PROFILE=Release` (mixed case) is release mode,
and the unset `FFDEV1` override is treated as not set. -/
theorem claim_C10_witness :
    is_release_mode envRelease = true ∧
    has_env_var_with_value envRelease "FFDEV1" "1" = false :=
  ⟨(claim_C10 envRelease "PROFILE" "release").2.2.1 (by decide),
   (claim_C10 envRelease "FFDEV1" "1").1 (by decide)⟩

/-! ### Helper lemmas -/

/-- All lines satisfy the negation of a test iff no line satisfies it. -/
lemma all_not_eq_not_any (l : List String) (p : String → Bool) :
    l.all (fun x => !(p x)) = !(l.any p) := by
  induction l with
  | nil => rfl
  | cons a t ih => simp [List.all_cons, List.any_cons, ih]

/-- Closed form of the resolution fold from an arbitrary accumulator:
missing entries are the non-existing joined paths in manifest order, and
the resolved entries are the existing ones, in manifest order. -/
lemma resolve_foldl (hx : String → Bool) (sp : String) (hs : List String)
    (acc : List String × List String) :
    hs.foldl (resolve_step hx sp) acc =
      (acc.1 ++ (hs.map (pathJoin sp)).filter (fun p => !(hx p)),
       acc.2 ++ (hs.map (pathJoin sp)).filter (fun p => hx p)) := by
  induction hs generalizing acc with
  | nil => simp
  | cons a t ih =>
    cases h : hx (pathJoin sp a) <;>
      simp [resolve_step, ih, h, List.filter_cons]

/-- Claim C4: on a configure failure the retry fires iff a line of the
combined stderr+stdout contains the assembler-missing signature; it runs
exactly once, with `--disable-x86asm` appended to the original flags; a
failure without the signature aborts with the first attempt's diagnostics,
and a failed retry aborts with the retry attempt's diagnostics. -/
theorem claim_C4 (ev : List String → ProcOutput) (flags : List String)
    (hfail : (ev flags).success = false) :
    ((run_configure ev flags).1 = [flags, flags ++ [disable_x86asm]] ↔
      nasm_yasm_issue (ev flags) = true) ∧
    (nasm_yasm_issue (ev flags) = false →
      (run_configure ev flags).1 = [flags] ∧
      (run_configure ev flags).2 = Except.error (configure_diag (ev flags))) ∧
    (nasm_yasm_issue (ev flags) = true →
      (ev (flags ++ [disable_x86asm])).success = false →
      (run_configure ev flags).2 =
        Except.error (configure_diag (ev (flags ++ [disable_x86asm])))) ∧
    (nasm_yasm_issue (ev flags) = true →
      (ev (flags ++ [disable_x86asm])).success = true →
      (run_configure ev flags).2 = Except.ok ()) := by
  cases hsig : nasm_yasm_issue (ev flags) <;>
    cases hretry : (ev (flags ++ [disable_x86asm])).success <;>
      simp [run_configure, hfail, hsig, hretry]

/-- A configure oracle that fails the first attempt with the signature in
stderr and fails the retry with different diagnostics. -/
def evW : List String → ProcOutput := fun fl =>
  if fl.isEmpty then ProcOutput.mk false "" "nasm/yasm not found or too old"
  else ProcOutput.mk false "retry stdout" "retry stderr"

/-- Claim C4 witness: the signature-bearing first failure triggers the
retry, and the second failure reports the retry's captured output. -/
theorem claim_C4_witness :
    (run_configure evW []).2 =
      Except.error (configure_diag (evW ([] ++ [disable_x86asm]))) :=
  (claim_C4 evW [] (by decide)).2.2.1 (by decide) (by decide)

/-- Claim C7: header resolution collects every unresolved entry — the
missing list equals the non-existing joined paths in manifest order — and
whenever it is non-empty the codegen step reports exactly that full list
and never reaches generation, whatever the generator would have done. -/
theorem claim_C7 (hx : String → Bool) (sp : String) (hs : List String) :
    ((resolve_headers hx sp hs).1 =
      (hs.map (pathJoin sp)).filter (fun p => !(hx p))) ∧
    (∀ genOk : Bool, (resolve_headers hx sp hs).1 ≠ [] →
      run_codegen hx sp hs genOk =
        some (BuildError.missingHeaders (resolve_headers hx sp hs).1)) := by
  constructor
  · simpa [resolve_headers] using
      congrArg Prod.fst (resolve_foldl hx sp hs ([], []))
  · intro genOk hne
    simp only [run_codegen]
    rw [if_neg (by simp [List.isEmpty_iff]; exact hne)]

/-- Existence probe for the C7 witness: only `src/h2` exists. -/
def hxW : String → Bool := fun p => p = "src/h2"

/-- Claim C7 witness: a manifest with two unresolved entries reports both
of them, in order, even with a generator that would succeed. -/
theorem claim_C7_witness :
    run_codegen hxW "src" ["h1", "h2", "h3"] true =
      some (BuildError.missingHeaders ["src/h1", "src/h3"]) :=
  ((claim_C7 hxW "src" ["h1", "h2", "h3"]).2 true (by decide)).trans (by decide)

/-- Claim C8: the manifest is rejected whole iff some line is empty or
whitespace-only after trimming, and accepted (with its lines) iff no line
is; a single blank line among valid ones therefore rejects everything. -/
theorem claim_C8 (content : String) :
    (load_manifest content = Except.error "manifest line empty after trimming" ↔
      (rustLines content).any (fun l => trimIsEmpty l) = true) ∧
    (load_manifest content = Except.ok (rustLines content) ↔
      (rustLines content).any (fun l => trimIsEmpty l) = false) := by
  simp only [load_manifest]
  rw [all_not_eq_not_any]
  cases h : (rustLines content).any (fun l => trimIsEmpty l) <;> simp [h]

/-- Pure form of the newest-timestamp accumulation once the accumulator
holds a candidate: replace only on a strictly greater timestamp. -/
def pickNewest (acc : String × Nat) : List (String × Nat) → String × Nat
  | [] => acc
  | xt :: rest =>
    if xt.2 > acc.2 then pickNewest xt rest else pickNewest acc rest

/-- The fold of `newest_step` from a non-empty accumulator computes
`pickNewest`. -/
lemma foldl_newest_some (l : List (String × Nat)) :
    ∀ acc : String × Nat,
      l.foldl newest_step (some acc) = some (pickNewest acc l) := by
  induction l with
  | nil => intro acc; rfl
  | cons xt rest ih =>
    intro acc
    simp only [List.foldl_cons, newest_step, pickNewest]
    by_cases h : xt.2 > acc.2
    · rw [if_pos h, if_pos h]; exact ih xt
    · rw [if_neg h, if_neg h]; exact ih acc

/-- When one entry strictly dominates every other timestamp, the
accumulation picks it, from any starting point among the entries. -/
lemma pickNewest_unique (x : String × Nat) :
    ∀ (l : List (String × Nat)) (acc : String × Nat),
      x ∈ acc :: l → (∀ y ∈ acc :: l, y = x ∨ y.2 < x.2) →
      pickNewest acc l = x := by
  intro l
  induction l with
  | nil =>
    intro acc hx _
    have h : x = acc := List.mem_singleton.mp hx
    rw [h]
    rfl
  | cons hd rest ih =>
    intro acc hx hmax
    simp only [pickNewest]
    by_cases h : hd.2 > acc.2
    · rw [if_pos h]
      apply ih hd
      · rcases List.mem_cons.mp hx with hxa | hxl
        · rcases hmax hd (List.mem_cons_of_mem acc (List.mem_cons_self hd rest)) with h1 | h1
          · rw [h1]; exact List.mem_cons_self x rest
          · exfalso; subst hxa; omega
        · exact hxl
      · intro y hy
        exact hmax y (List.mem_cons_of_mem acc hy)
    · rw [if_neg h]
      apply ih acc
      · rcases List.mem_cons.mp hx with hxa | hxl
        · rw [hxa]; exact List.mem_cons_self acc rest
        · rcases List.mem_cons.mp hxl with hxh | hxr
          · rcases hmax acc (List.mem_cons_self acc (hd :: rest)) with h1 | h1
            · rw [h1]; exact List.mem_cons_self x rest
            · exfalso; subst hxh; omega
          · exact List.mem_cons_of_mem acc hxr
      · intro y hy
        rcases List.mem_cons.mp hy with hya | hyr
        · rw [hya]; exact hmax acc (List.mem_cons_self acc (hd :: rest))
        · exact hmax y (List.mem_cons_of_mem acc (List.mem_cons_of_mem hd hyr))

/-- Claim C9: `lookup_newest` returns none on an empty input and when no
timestamp is readable; a single readable input is returned; on two
readable inputs the strictly later one wins and a tie keeps the
first-seen entry (strict `>`, never `>=`); in general an entry whose
timestamp strictly dominates all others is the one returned. -/
theorem claim_C9 (meta : String → Option Nat) (paths : List String) :
    (lookup_newest meta [] = none) ∧
    ((∀ p ∈ paths, meta p = none) → lookup_newest meta paths = none) ∧
    (∀ p t, meta p = some t → lookup_newest meta [p] = some p) ∧
    (∀ p q a b, meta p = some a → meta q = some b →
      (a < b → lookup_newest meta [p, q] = some q) ∧
      (b ≤ a → lookup_newest meta [p, q] = some p)) ∧
    (∀ x t, (x, t) ∈ with_timestamps meta paths →
      (∀ y ∈ with_timestamps meta paths, y = (x, t) ∨ y.2 < t) →
      lookup_newest meta paths = some x) := by
  refine ⟨rfl, ?_, ?_, ?_, ?_⟩
  · intro h
    have hW : with_timestamps meta paths = [] := by
      unfold with_timestamps
      rw [List.filterMap_eq_nil_iff]
      intro a ha; rw [h a ha]; rfl
    unfold lookup_newest
    rw [hW]; rfl
  · intro p t h
    simp [lookup_newest, with_timestamps, h, newest_step]
  · intro p q a b hp hq
    have hW : with_timestamps meta [p, q] = [(p, a), (q, b)] := by
      simp [with_timestamps, hp, hq]
    constructor
    · intro hlt
      unfold lookup_newest
      rw [hW]
      simp only [List.foldl_cons, List.foldl_nil, newest_step]
      rw [if_pos hlt]
      rfl
    · intro hle
      unfold lookup_newest
      rw [hW]
      simp only [List.foldl_cons, List.foldl_nil, newest_step]
      rw [if_neg (Nat.not_lt.mpr hle)]
      rfl
  · intro x t hmem hmax
    cases hW : with_timestamps meta paths with
    | nil => rw [hW] at hmem; cases hmem
    | cons a rest =>
      unfold lookup_newest
      rw [hW]
      simp only [List.foldl_cons]
      have h0 : newest_step none a = some a := rfl
      rw [h0, foldl_newest_some]
      rw [pickNewest_unique (x, t) rest a (hW ▸ hmem)
        (fun y hy => hmax y (hW ▸ hy))]
      rfl

/-- Metadata oracle for the C9 witness: two paths with equal creation
timestamps. -/
def metaW : String → Option Nat := fun s =>
  if s = "older" then some 5 else if s = "tie" then some 5 else none

/-- Claim C9 witness: two inputs with equal timestamps keep the
first-seen entry. -/
theorem claim_C9_witness :
    lookup_newest metaW ["older", "tie"] = some "older" :=
  ((claim_C9 metaW ["older", "tie"]).2.2.2.1 "older" "tie" 5 5
    (by decide) (by decide)).2 (by decide)

/-- The EXTRACT phase only ever fails with an extraction error. -/
lemma extract_phase_error (w : BuildWorld) (sp : String) (sk : Bool)
    (e : BuildError) (h : extract_phase w sp sk = some e) :
    e = BuildError.extractionError := by
  unfold extract_phase at h
  split at h
  · split at h
    · split at h
      · cases h
      · cases h; rfl
    · cases h; rfl
  · cases h

/-- The BUILD CODE phase only ever fails with a configure or make error. -/
lemma native_phase_error (w : BuildWorld) (sk : Bool) (e : BuildError)
    (h : native_phase w sk = some e) :
    (∃ d, e = BuildError.configureError d) ∨
      (∃ d, e = BuildError.makeError d) := by
  unfold native_phase at h
  split at h
  · cases h
  · split at h
    · cases h; exact Or.inl ⟨_, rfl⟩
    · split at h
      · cases h
      · cases h; exact Or.inr ⟨_, rfl⟩

/-- The CODEGEN section only ever fails with a manifest, missing-header
or generation error. -/
lemma codegen_section_error (w : BuildWorld) (sp : String) (e : BuildError)
    (h : codegen_section w sp = some e) :
    e = BuildError.manifestError ∨
      (∃ ps, e = BuildError.missingHeaders ps) ∨
      e = BuildError.codegenError := by
  unfold codegen_section at h
  split at h
  · cases h; exact Or.inl rfl
  · split at h
    · cases h; exact Or.inl rfl
    · unfold codegen_phase at h
      split at h
      · cases h
      · simp only [run_codegen] at h
        split at h
        · split at h
          · cases h
          · cases h; exact Or.inr (Or.inr rfl)
        · cases h; exact Or.inr (Or.inl ⟨_, rfl⟩)

/-- Every run of the pipeline either stops before the LINK section with
an extraction, configure or make error and an empty directive trace, or
reaches the LINK section, emits the full directive list, and can then
only fail in the manifest, missing-header, generation or glue-compile
steps. -/
lemma build_shape (w : BuildWorld) (op : String) :
    (∃ e, build w op = ([], some e) ∧
      (e = BuildError.extractionError ∨
        (∃ d, e = BuildError.configureError d) ∨
        (∃ d, e = BuildError.makeError d))) ∨
    ((build w op).1 =
        link_directives (pathJoin op source_dir_name) ++
          [Directive.rerunIfChanged "headers"] ∧
      ∀ e, (build w op).2 = some e →
        e = BuildError.manifestError ∨
          (∃ ps, e = BuildError.missingHeaders ps) ∨
          e = BuildError.codegenError ∨ e = BuildError.cbitsError) := by
  simp only [build]
  cases hE : extract_phase w (pathJoin op source_dir_name)
      (skip_build w.pathExists (pathJoin op source_dir_name) w.env) with
  | some e => exact Or.inl ⟨e, rfl, Or.inl (extract_phase_error w _ _ e hE)⟩
  | none =>
    cases hN : native_phase w
        (skip_build w.pathExists (pathJoin op source_dir_name) w.env) with
    | some e => exact Or.inl ⟨e, rfl, Or.inr (native_phase_error w _ e hN)⟩
    | none =>
      cases hC : codegen_section w (pathJoin op source_dir_name) with
      | some e =>
        refine Or.inr ⟨rfl, fun e' he' => ?_⟩
        cases he'
        rcases codegen_section_error w _ e hC with h | ⟨ps, h⟩ | h
        · exact Or.inl h
        · exact Or.inr (Or.inl ⟨ps, h⟩)
        · exact Or.inr (Or.inr (Or.inl h))
      | none =>
        cases hcb : w.cbitsOk with
        | true => exact Or.inr ⟨rfl, fun e' he' => by cases he'⟩
        | false =>
          refine Or.inr ⟨rfl, fun e' he' => ?_⟩
          cases he'
          exact Or.inr (Or.inr (Or.inr rfl))

/-- Claim C2 amended: a fatal error in extraction, configuration or
native compilation aborts the pipeline before any directive is emitted;
manifest, missing-header and codegen failures, however, occur only after
the full set of link directives has already been emitted. -/
theorem claim_C2_amended (w : BuildWorld) (op : String) :
    (((build w op).2 = some BuildError.extractionError ∨
      (∃ d, (build w op).2 = some (BuildError.configureError d)) ∨
      (∃ d, (build w op).2 = some (BuildError.makeError d))) →
      (build w op).1 = []) ∧
    (((build w op).2 = some BuildError.manifestError ∨
      (∃ ps, (build w op).2 = some (BuildError.missingHeaders ps)) ∨
      (build w op).2 = some BuildError.codegenError) →
      (build w op).1 =
        link_directives (pathJoin op source_dir_name) ++
          [Directive.rerunIfChanged "headers"]) := by
  rcases build_shape w op with ⟨e, heq, hcls⟩ | ⟨htr, hcls⟩
  · constructor
    · intro _; rw [heq]
    · intro h
      exfalso
      have h2 : ∃ X, (build w op).2 = some X ∧
          (X = BuildError.manifestError ∨
            (∃ ps, X = BuildError.missingHeaders ps) ∨
            X = BuildError.codegenError) := by
        rcases h with h | ⟨ps, h⟩ | h
        · exact ⟨_, h, Or.inl rfl⟩
        · exact ⟨_, h, Or.inr (Or.inl ⟨ps, rfl⟩)⟩
        · exact ⟨_, h, Or.inr (Or.inr rfl)⟩
      rcases h2 with ⟨X, hX, hXc⟩
      rw [heq] at hX
      simp only [Option.some.injEq] at hX
      subst hX
      rcases hcls with h1 | ⟨d, h1⟩ | ⟨d, h1⟩ <;>
        rcases hXc with h2 | ⟨ps, h2⟩ | h2 <;>
          simp [h1] at h2
  · constructor
    · intro h
      exfalso
      rcases h with h | ⟨d, h⟩ | ⟨d, h⟩ <;>
        rcases hcls _ h with h1 | ⟨ps, h1⟩ | h1 | h1 <;>
          simp at h1
    · intro _; exact htr

/-- A world whose manifest file contains a blank line between two valid
entries; everything else is healthy and the native build is skippable. -/
def worldManifestBlank : BuildWorld :=
  { worldBase with headersFile := some "libavcodec/avcodec.h\n\nlibavutil/avutil.h" }

/-- Claim C2 counterexample: with a blank manifest line the run fails
(with the manifest error) strictly after the static-link directive for
avcodec has been emitted, so link directives are emitted in a run that
subsequently fails, contrary to the claim. -/
theorem claim_C2_counterexample :
    (build worldManifestBlank "out").2 = some BuildError.manifestError ∧
    Directive.linkLibStatic "avcodec" ∈ (build worldManifestBlank "out").1 := by
  constructor
  · decide
  · decide

/-- A world whose source tree is absent and whose tar extraction fails. -/
def worldTarFail : BuildWorld :=
  { worldBase with pathExists := fun _ => false, tarOk := false }

/-- Claim C2 witness: a failing extraction aborts with an empty directive
trace. -/
theorem claim_C2_witness :
    (build worldTarFail "out").2 = some BuildError.extractionError ∧
    (build worldTarFail "out").1 = [] :=
  ⟨by decide, (claim_C2_amended worldTarFail "out").1 (Or.inl (by decide))⟩
